import Mathlib

/-!
# Verification of the PhotoFaiss indexing and retrieval engine

Shallow embedding of `src/server/server.py`: the batch-ingestion handler
(`upload_images`), the flat-L2 vector index it builds, and the two retrieval
handlers (`search_similar_images`, `query_images`) that answer queries against
the currently active index generation.

Modelling conventions:
* Feature vectors are embedded with exact integer coordinates (`List ℤ`).
  The claims verified here concern result ordering, lengths, catalog
  structure and error selection, none of which depend on floating-point
  rounding of the `float32` coordinates used at runtime.
* The embedding extractor (`extract_features`, a ResNet forward pass) is the
  external Embedding Provider: its output enters the model as data (a vector
  for a query, a per-item outcome for ingestion), never as computation.
* The mutable module globals `faiss_index` and `image_paths` are gathered in
  a `ServerState` record; each HTTP handler becomes a function from the
  pre-state (plus its request data) to a response paired with the post-state.
* HTTP/multipart/zip plumbing is outside the embedded core: a manifest
  arrives already decoded as an ordered list of entries, each bundled with
  the outcome the filesystem / decoder / provider produced for it.
-/

deriving instance DecidableEq for Except

namespace PhotoFaiss

/-- Squared Euclidean (L2) distance between two coordinate lists, the metric
of `faiss.IndexFlatL2` used at `server.py:141`. -/
def sqDist (q v : List ℤ) : ℤ :=
  (List.zipWith (fun a b => (a - b) ^ 2) q v).sum

/-- All (ordinal, squared distance) candidate pairs for a query against the
stored vectors: ordinal `i` is scored against the `i`-th stored vector. -/
def searchCandidates (vecs : List (List ℤ)) (q : List ℤ) : List (Nat × ℤ) :=
  (List.range vecs.length).map (fun i => (i, sqDist q (vecs.getD i [])))

/-- Result order of the index search: ascending squared distance, ties broken
by ascending ordinal. -/
def distOrd (a b : Nat × ℤ) : Prop :=
  a.2 < b.2 ∨ (a.2 = b.2 ∧ a.1 ≤ b.1)

/-- Strict version of `distOrd`: strictly closer, or equally close with a
strictly smaller ordinal. -/
def distOrdStrict (a b : Nat × ℤ) : Prop :=
  a.2 < b.2 ∨ (a.2 = b.2 ∧ a.1 < b.1)

instance : DecidableRel distOrd := fun a b => by
  unfold distOrd
  infer_instance

instance : IsTotal (Nat × ℤ) distOrd where
  total a b := by
    unfold distOrd
    rcases lt_trichotomy a.2 b.2 with h | h | h
    · exact Or.inl (Or.inl h)
    · rcases Nat.le_total a.1 b.1 with h1 | h1
      · exact Or.inl (Or.inr ⟨h, h1⟩)
      · exact Or.inr (Or.inr ⟨h.symm, h1⟩)
    · exact Or.inr (Or.inl h)

instance : IsTrans (Nat × ℤ) distOrd where
  trans a b c hab hbc := by
    unfold distOrd at *
    rcases hab with h1 | ⟨h1, h1o⟩ <;> rcases hbc with h2 | ⟨h2, h2o⟩
    · exact Or.inl (h1.trans h2)
    · exact Or.inl (h2 ▸ h1)
    · exact Or.inl (h1 ▸ h2)
    · exact Or.inr ⟨h1.trans h2, h1o.trans h2o⟩

/-- `True` when every stored row has the length of the first row: the
condition under which `np.array(image_features)` at `server.py:139` yields a
rectangular matrix (a ragged batch raises inside the handler's `try`). -/
def sameDim (vs : List (List ℤ)) : Bool :=
  vs.all (fun v => v.length = (vs.headD []).length)

/-- Failures of the index-level search, per spec §4.3. -/
inductive SearchError where
  | EmptyIndex
  | DimensionMismatch
deriving DecidableEq

/-- Modelled from the spec: the Vector Index `search` operation of §4.3. Its
implementation is the external `faiss` library (`IndexFlatL2.search`,
invoked at `server.py:199` and `server.py:235`), whose code is not part of
this repository; per the spec it returns the ordered sequence of
(ordinal, squared distance) pairs, "ascending by squared Euclidean distance,
ties broken by ascending ordinal, length `min(k, N)`", fails
`DimensionMismatch` if the query dimension differs from the index dimension,
and fails `EmptyIndex` if N = 0. -/
def faissSearch (vecs : List (List ℤ)) (q : List ℤ) (k : Nat) :
    Except SearchError (List (Nat × ℤ)) :=
  if vecs.isEmpty then .error .EmptyIndex
  else if q.length = (vecs.headD []).length then
    .ok ((List.insertionSort distOrd (searchCandidates vecs q)).take k)
  else .error .DimensionMismatch

/-- Modelled from the spec: the Vector Index `reconstruct` operation of §4.3
(`IndexFlatL2.reconstruct`, invoked at `server.py:230`, also external faiss
code): the exact stored vector at an ordinal, failing outside `[0, N)`. -/
def faissReconstruct (vecs : List (List ℤ)) (i : Nat) : Option (List ℤ) :=
  vecs.get? i

/-- The module globals of `server.py`: `faiss_index` (`none` until the first
successful upload, then the stored vectors of the active generation, in
ordinal order) and `image_paths` (the URI catalog, same order). -/
structure ServerState where
  faiss_index : Option (List (List ℤ))
  image_paths : List String
deriving DecidableEq

/-- The state at process start: `faiss_index = None`, `image_paths = []`
(`server.py:48`-`49`). -/
def initialState : ServerState :=
  { faiss_index := none, image_paths := [] }

/-- Well-formedness of a reachable state: before any upload both globals are
empty; after an upload the vector store and the URI catalog have equal length
and the stored vectors share one dimension. -/
def ServerState.wf (s : ServerState) : Prop :=
  match s.faiss_index with
  | none => s.image_paths = []
  | some vecs => vecs.length = s.image_paths.length ∧ sameDim vecs = true

/-- Error outcomes of the two retrieval endpoints, by response payload:
`IndexNotReady` is the 500 "FAISS index is not initialized" of
`server.py:177`-`181`, `UriNotFound` the `{"error": "URI not found"}` of
`server.py:223`-`225` and `server.py:243`-`245`, `OtherError` any other
exception converted to a generic error response by the handlers'
`except` blocks. -/
inductive RetrievalError where
  | IndexNotReady
  | UriNotFound
  | OtherError
deriving DecidableEq

/-- The success payload of both retrieval endpoints:
`{"similar_images": ..., "distances": ...}`. -/
structure SearchResponse where
  similar_images : List String
  distances : List ℤ
deriving DecidableEq

/-- The `/search` handler `search_similar_images` (`server.py:174`-`213`).
The uploaded query image has already passed through the external embedding
provider, so the handler receives its feature vector; `k` is the
caller-supplied parameter (FastAPI default 5). Returns the response together
with the post-state of the globals. -/
def search_similar_images (s : ServerState) (features : List ℤ) (k : Nat) :
    Except RetrievalError SearchResponse × ServerState :=
  match s.faiss_index with
  | none => (.error .IndexNotReady, s)
  | some vecs =>
    match faissSearch vecs features k with
    | .error _ => (.error .OtherError, s)
    | .ok pairs =>
      (.ok { similar_images := pairs.map (fun p => s.image_paths.getD p.1 "")
             distances := pairs.map (fun p => p.2) }, s)

/-- The body of the `/query` handler after URI resolution
(`server.py:229`-`242`): reconstruct the vector stored at `idx`, search the
index with the fixed `k = 5` of `server.py:234`, and map the returned
ordinals back to URIs. A `None` index or a failing reconstruct/search raises
and is converted by the handler's generic `except` block. -/
def queryFromIdx (s : ServerState) (idx : Nat) :
    Except RetrievalError SearchResponse :=
  match s.faiss_index with
  | none => .error .OtherError
  | some vecs =>
    match faissReconstruct vecs idx with
    | none => .error .OtherError
    | some qv =>
      match faissSearch vecs qv 5 with
      | .error _ => .error .OtherError
      | .ok pairs =>
        .ok { similar_images := pairs.map (fun p => s.image_paths.getD p.1 "")
              distances := pairs.map (fun p => p.2) }

/-- The `/query` handler `query_images` (`server.py:215`-`248`): reject a URI
absent from `image_paths` with "URI not found", otherwise resolve it with
`image_paths.index(uri)` (first match) and delegate to the search body.
Returns the response together with the post-state of the globals. -/
def query_images (s : ServerState) (uri : String) :
    Except RetrievalError SearchResponse × ServerState :=
  if uri ∈ s.image_paths then
    (queryFromIdx s (s.image_paths.indexOf uri), s)
  else
    (.error .UriNotFound, s)

/-- What the environment (filesystem, PIL, embedding provider) does with one
manifest entry during ingestion: the file is absent from the extracted
archive (`server.py:109`), `Image.open` fails (`server.py:115`), the
provider `extract_features` fails (`server.py:118`), or a feature vector is
produced. -/
inductive ItemOutcome where
  | missing
  | decodeFail
  | extractFail
  | ok (vec : List ℤ)
deriving DecidableEq

/-- One pair of the uploaded `manifest.json` — archive-local key mapped to
external URI — bundled with the outcome its processing produces. -/
structure ManifestEntry where
  localKey : String
  uri : String
  outcome : ItemOutcome
deriving DecidableEq

/-- An entry survives ingestion exactly when a feature vector is produced
for it. -/
def survives (e : ManifestEntry) : Bool :=
  match e.outcome with
  | .ok _ => true
  | _ => false

/-- The feature vector of a surviving entry (junk for skipped entries, which
never contribute one). -/
def entryVec (e : ManifestEntry) : List ℤ :=
  match e.outcome with
  | .ok v => v
  | _ => []

/-- The manifest loop of `upload_images` (`server.py:106`-`126`): walk the
manifest in order; a missing file is skipped with `continue`, a decode or
extraction failure is swallowed by the per-item `except`; each survivor
appends its features to `image_features` and its URI to
`valid_image_paths_local`, in step. -/
def processManifest : List ManifestEntry → List (List ℤ) × List String
  | [] => ([], [])
  | e :: rest =>
    let r := processManifest rest
    match e.outcome with
    | .ok v => (v :: r.1, e.uri :: r.2)
    | _ => r

/-- The manifest keys that were soft-skipped during ingestion. -/
def skippedKeys (m : List ManifestEntry) : List String :=
  (m.filter (fun e => !survives e)).map (fun e => e.localKey)

/-- Failure outcomes of the upload endpoint: the 400 "No valid images found"
of `server.py:161`-`165`, and the generic 500 of `server.py:167`-`172`
(raised e.g. by `np.array` on a ragged feature batch). -/
inductive UploadError where
  | EmptyBatch
  | OtherError
deriving DecidableEq

/-- The success payload of `/imgUpload` (`server.py:152`-`160`). -/
structure UploadResponse where
  message : String
  token : String
  image_count : Nat
  processed_files : List String
deriving DecidableEq

/-- The `/imgUpload` handler `upload_images` (`server.py:51`-`172`) from the
decoded manifest onward: run the manifest loop; with no survivors answer the
400 of `server.py:161` leaving the globals untouched; with a ragged feature
batch the `np.array(...).astype` of `server.py:139` raises before any global
is written; otherwise install the new vectors and URI catalog in the globals
and answer with the freshly minted token (`secrets.token_hex`, external
randomness, received here as the argument `token`), the accepted count and
the accepted URIs. -/
def upload_images (s : ServerState) (m : List ManifestEntry) (token : String) :
    Except UploadError UploadResponse × ServerState :=
  let fu := processManifest m
  if fu.1.isEmpty then
    (.error .EmptyBatch, s)
  else if sameDim fu.1 then
    (.ok { message := "Images processed and index created successfully"
           token := token
           image_count := fu.2.length
           processed_files := fu.2 },
     { faiss_index := some fu.1, image_paths := fu.2 })
  else
    (.error .OtherError, s)

/-- The successive values of the global pair `(faiss_index, image_paths)`
observable during one `upload_images` call, one snapshot after each
mutation of a global: entry state; after `faiss_index = faiss.IndexFlatL2(d)`
(`server.py:141`, the global now holds a fresh empty index); after
`faiss_index.add(image_features)` (`server.py:142`, the published index is
filled in place); after `image_paths = valid_image_paths_local`
(`server.py:143`). Failing uploads never write a global. -/
def publishTrace (s : ServerState) (m : List ManifestEntry) :
    List ServerState :=
  let fu := processManifest m
  if fu.1.isEmpty then [s]
  else if sameDim fu.1 then
    [s,
     { faiss_index := some [], image_paths := s.image_paths },
     { faiss_index := some fu.1, image_paths := s.image_paths },
     { faiss_index := some fu.1, image_paths := fu.2 }]
  else [s]

/-- A catalog entry of the active generation, in the spec's §3 sense: the
vector stored at an ordinal together with the URI at the same position of
`image_paths`. -/
structure CatalogEntry where
  ordinal : Nat
  uri : String
  vector : List ℤ
deriving DecidableEq

/-- The catalog of a state: one entry per stored vector, ordinal `i`
carrying `image_paths[i]` and the `i`-th stored vector. -/
def catalogEntries (s : ServerState) : List CatalogEntry :=
  match s.faiss_index with
  | none => []
  | some vecs =>
    (List.range vecs.length).map
      (fun i => { ordinal := i, uri := s.image_paths.getD i "", vector := vecs.getD i [] })

/-! ## Concrete states and batches used to instantiate the theorems -/

/-- A two-entry generation: vectors `[0]` and `[1]` under URIs "a" and "b". -/
def cexState1 : ServerState :=
  { faiss_index := some [[0], [1]], image_paths := ["a", "b"] }

/-- A two-entry generation: vectors `[0]` and `[3]` under URIs "a" and "b". -/
def stateW1 : ServerState :=
  { faiss_index := some [[0], [3]], image_paths := ["a", "b"] }

/-- A manifest whose first key has no file in the archive and whose second
key is processed successfully. -/
def manifest5 : List ManifestEntry :=
  [{ localKey := "k1", uri := "u1", outcome := .missing },
   { localKey := "k2", uri := "u2", outcome := .ok [1] }]

/-- A one-entry generation predating an ingestion. -/
def stateW3 : ServerState :=
  { faiss_index := some [[9]], image_paths := ["p"] }

/-- A manifest all of whose entries fail: one file missing, one undecodable,
one failing extraction. -/
def manifestW3 : List ManifestEntry :=
  [{ localKey := "k1", uri := "u1", outcome := .missing },
   { localKey := "k2", uri := "u2", outcome := .decodeFail },
   { localKey := "k3", uri := "u3", outcome := .extractFail }]

/-- A manifest with survivors at positions 0 and 2 and a missing file at
position 1. -/
def manifestW4 : List ManifestEntry :=
  [{ localKey := "k1", uri := "u1", outcome := .ok [1, 1] },
   { localKey := "k2", uri := "u2", outcome := .missing },
   { localKey := "k3", uri := "u3", outcome := .ok [2, 2] }]

/-- A three-entry generation in which the URI "x" occurs at ordinals 0
and 2. -/
def stateW6 : ServerState :=
  { faiss_index := some [[0], [1], [0]], image_paths := ["x", "y", "x"] }

/-- A one-entry generation active before a re-ingestion. -/
def stateW8 : ServerState :=
  { faiss_index := some [[5]], image_paths := ["old"] }

/-- A single-survivor manifest replacing the generation of `stateW8`. -/
def manifestW8 : List ManifestEntry :=
  [{ localKey := "k", uri := "new", outcome := .ok [7] }]

/-- A seven-entry generation, larger than the fixed k = 5. -/
def stateW9 : ServerState :=
  { faiss_index := some [[0], [1], [2], [3], [4], [5], [6]],
    image_paths := ["p0", "p1", "p2", "p3", "p4", "p5", "p6"] }

/-! ## Toolkit lemmas -/

/-- The manifest loop produces exactly the surviving entries' vectors and
URIs, in manifest order. -/
theorem processManifest_eq (m : List ManifestEntry) :
    processManifest m =
      ((m.filter survives).map entryVec, (m.filter survives).map ManifestEntry.uri) := by
  induction m with
  | nil => rfl
  | cons e rest ih =>
    cases h : e.outcome with
    | ok v => simp [processManifest, List.filter_cons, survives, entryVec, h, ih]
    | missing => simp [processManifest, List.filter_cons, survives, h, ih]
    | decodeFail => simp [processManifest, List.filter_cons, survives, h, ih]
    | extractFail => simp [processManifest, List.filter_cons, survives, h, ih]

theorem length_searchCandidates (vecs : List (List ℤ)) (q : List ℤ) :
    (searchCandidates vecs q).length = vecs.length := by
  simp [searchCandidates]

theorem of_mem_searchCandidates {vecs : List (List ℤ)} {q : List ℤ} {p : Nat × ℤ}
    (hp : p ∈ searchCandidates vecs q) :
    p.1 < vecs.length ∧ p.2 = sqDist q (vecs.getD p.1 []) := by
  simp only [searchCandidates, List.mem_map, List.mem_range] at hp
  obtain ⟨i, hi, rfl⟩ := hp
  exact ⟨hi, rfl⟩

theorem mem_searchCandidates_of_lt {vecs : List (List ℤ)} {q : List ℤ} {i : Nat}
    (hi : i < vecs.length) :
    (i, sqDist q (vecs.getD i [])) ∈ searchCandidates vecs q := by
  simp only [searchCandidates, List.mem_map, List.mem_range]
  exact ⟨i, hi, rfl⟩

theorem map_fst_searchCandidates (vecs : List (List ℤ)) (q : List ℤ) :
    (searchCandidates vecs q).map Prod.fst = List.range vecs.length := by
  simp only [searchCandidates, List.map_map]
  exact List.map_id (List.range vecs.length)

theorem length_sortTake (vecs : List (List ℤ)) (q : List ℤ) (k : Nat) :
    ((List.insertionSort distOrd (searchCandidates vecs q)).take k).length
      = min k vecs.length := by
  rw [List.length_take, List.length_insertionSort, length_searchCandidates]

theorem mem_of_mem_sortTake {vecs : List (List ℤ)} {q : List ℤ} {k : Nat} {p : Nat × ℤ}
    (hp : p ∈ (List.insertionSort distOrd (searchCandidates vecs q)).take k) :
    p ∈ searchCandidates vecs q :=
  ((List.perm_insertionSort distOrd _).mem_iff).mp
    (List.Sublist.mem hp (List.take_sublist _ _))

theorem distOrdStrict_of {a b : Nat × ℤ} (h : distOrd a b) (hne : a.1 ≠ b.1) :
    distOrdStrict a b := by
  rcases h with h | ⟨he, hle⟩
  · exact Or.inl h
  · exact Or.inr ⟨he, lt_of_le_of_ne hle hne⟩

/-- The (truncated) sorted search result is strictly ordered: ascending
squared distance, ties broken by strictly ascending ordinal. -/
theorem pairwise_strict_sortTake (vecs : List (List ℤ)) (q : List ℤ) (k : Nat) :
    List.Pairwise distOrdStrict
      ((List.insertionSort distOrd (searchCandidates vecs q)).take k) := by
  have hs : List.Pairwise distOrd
      ((List.insertionSort distOrd (searchCandidates vecs q)).take k) :=
    List.Pairwise.sublist (List.take_sublist _ _)
      (List.sorted_insertionSort distOrd (searchCandidates vecs q))
  have hnd : (((List.insertionSort distOrd (searchCandidates vecs q)).take k).map
      Prod.fst).Nodup := by
    rw [List.map_take]
    refine List.Nodup.sublist (List.take_sublist _ _) ?_
    have hperm : ((List.insertionSort distOrd (searchCandidates vecs q)).map Prod.fst).Perm
        ((searchCandidates vecs q).map Prod.fst) :=
      List.Perm.map Prod.fst (List.perm_insertionSort distOrd _)
    rw [hperm.nodup_iff, map_fst_searchCandidates]
    exact List.nodup_range _
  have hne : List.Pairwise (fun a b : Nat × ℤ => a.1 ≠ b.1)
      ((List.insertionSort distOrd (searchCandidates vecs q)).take k) :=
    List.pairwise_map.mp hnd
  exact (hs.and hne).imp (fun h => distOrdStrict_of h.1 h.2)

theorem isEmpty_false_of_ne_nil {α : Type _} {l : List α} (h : l ≠ []) :
    l.isEmpty = false := by
  cases l with
  | nil => exact absurd rfl h
  | cons a t => rfl

/-- On a non-empty index and a dimension-matching query, the modelled search
succeeds with the sorted, truncated candidate list. -/
theorem faissSearch_ok {vecs : List (List ℤ)} {q : List ℤ} (k : Nat)
    (hne : vecs ≠ []) (hd : q.length = (vecs.headD []).length) :
    faissSearch vecs q k =
      .ok ((List.insertionSort distOrd (searchCandidates vecs q)).take k) := by
  simp [faissSearch, isEmpty_false_of_ne_nil hne, hd]

theorem sameDim_getD {vecs : List (List ℤ)} (h : sameDim vecs = true) {i : Nat}
    (hi : i < vecs.length) :
    (vecs.getD i []).length = (vecs.headD []).length := by
  have hmem : vecs.getD i [] ∈ vecs := by
    rw [List.getD_eq_getElem _ _ hi]
    exact List.getElem_mem hi
  have := List.all_eq_true.mp h _ hmem
  simpa using this

/-- Successful evaluation of the query body at an in-range ordinal. -/
theorem queryFromIdx_eq {vecs : List (List ℤ)} {paths : List String} {idx : Nat}
    (hidx : idx < vecs.length) (hsd : sameDim vecs = true) :
    queryFromIdx { faiss_index := some vecs, image_paths := paths } idx =
      .ok { similar_images :=
              ((List.insertionSort distOrd
                  (searchCandidates vecs (vecs.getD idx []))).take 5).map
                (fun p => paths.getD p.1 "")
            distances :=
              ((List.insertionSort distOrd
                  (searchCandidates vecs (vecs.getD idx []))).take 5).map
                (fun p => p.2) } := by
  have hne : vecs ≠ [] := by
    intro h
    rw [h] at hidx
    exact absurd hidx (by simp)
  have hrec : faissReconstruct vecs idx = some (vecs.getD idx []) := by
    simp [faissReconstruct, List.get?_eq_getElem?, List.getElem?_eq_getElem hidx,
      List.getD_eq_getElem _ _ hidx]
  have hdim : (vecs.getD idx []).length = (vecs.headD []).length := sameDim_getD hsd hidx
  have hsearch : faissSearch vecs (vecs.getD idx []) 5 =
      .ok ((List.insertionSort distOrd (searchCandidates vecs (vecs.getD idx []))).take 5) :=
    faissSearch_ok 5 hne hdim
  simp only [queryFromIdx, hrec, hsearch]

theorem query_images_of_mem {s : ServerState} {uri : String}
    (h : uri ∈ s.image_paths) :
    query_images s uri = (queryFromIdx s (s.image_paths.indexOf uri), s) := by
  simp [query_images, h]

theorem query_images_of_not_mem {s : ServerState} {uri : String}
    (h : uri ∉ s.image_paths) :
    query_images s uri = (.error .UriNotFound, s) := by
  simp [query_images, h]

/-- `List.indexOf` really is the first match: the element is found at the
returned position. -/
theorem get?_indexOf_of_mem {l : List String} {a : String} (h : a ∈ l) :
    l[l.indexOf a]? = some a := by
  induction l with
  | nil => cases h
  | cons b t ih =>
    rcases eq_or_ne b a with rfl | hba
    · simp [List.indexOf_cons]
    · have hb : (b == a) = false := beq_eq_false_iff_ne.mpr hba
      have hmem : a ∈ t := by
        rcases List.mem_cons.mp h with rfl | h2
        · exact absurd rfl hba
        · exact h2
      simp [List.indexOf_cons, hb, ih hmem]

/-- `List.indexOf` really is the first match: no strictly earlier position
holds the element. -/
theorem get?_ne_of_lt_indexOf {l : List String} {a : String} {j : Nat}
    (hj : j < l.indexOf a) : l[j]? ≠ some a := by
  induction l generalizing j with
  | nil => simp [List.indexOf_nil] at hj
  | cons b t ih =>
    rcases eq_or_ne b a with rfl | hba
    · simp [List.indexOf_cons] at hj
    · have hb : (b == a) = false := beq_eq_false_iff_ne.mpr hba
      rw [List.indexOf_cons, hb] at hj
      cases j with
      | zero => simp [hba]
      | succ j =>
        have : j < t.indexOf a := by
          simpa using Nat.lt_of_succ_lt_succ (by simpa using hj)
        simpa using ih this

theorem survivors_vec_isEmpty_false {m : List ManifestEntry}
    (hs : ∃ e ∈ m, survives e = true) :
    ((m.filter survives).map entryVec).isEmpty = false := by
  obtain ⟨e, he, hse⟩ := hs
  apply isEmpty_false_of_ne_nil
  intro hnil
  have hmem : e ∈ m.filter survives := List.mem_filter.mpr ⟨he, hse⟩
  rw [List.map_eq_nil_iff.mp hnil] at hmem
  cases hmem

/-- Reduction of a successful upload: at least one survivor and a
rectangular feature batch put `upload_images` in its success branch, which
reports the accepted URIs and installs the survivors as the new globals. -/
theorem upload_images_success (s : ServerState) (m : List ManifestEntry) (tok : String)
    (hs : ∃ e ∈ m, survives e = true)
    (hd : sameDim ((m.filter survives).map entryVec) = true) :
    upload_images s m tok =
      (.ok { message := "Images processed and index created successfully"
             token := tok
             image_count := (m.filter survives).length
             processed_files := (m.filter survives).map ManifestEntry.uri },
       { faiss_index := some ((m.filter survives).map entryVec),
         image_paths := (m.filter survives).map ManifestEntry.uri }) := by
  simp [upload_images, processManifest_eq, survivors_vec_isEmpty_false hs, hd,
    List.length_map]

/-- Reduction of the global-state trace of a successful upload. -/
theorem publishTrace_success (s : ServerState) (m : List ManifestEntry)
    (hs : ∃ e ∈ m, survives e = true)
    (hd : sameDim ((m.filter survives).map entryVec) = true) :
    publishTrace s m =
      [s,
       { faiss_index := some [], image_paths := s.image_paths },
       { faiss_index := some ((m.filter survives).map entryVec),
         image_paths := s.image_paths },
       { faiss_index := some ((m.filter survives).map entryVec),
         image_paths := (m.filter survives).map ManifestEntry.uri }] := by
  simp [publishTrace, processManifest_eq, survivors_vec_isEmpty_false hs, hd]

/-- Reduction of a query whose URI is present, against a well-formed
generation. -/
theorem query_images_ok {vecs : List (List ℤ)} {paths : List String} {uri : String}
    (hmem : uri ∈ paths) (hlen : vecs.length = paths.length)
    (hsd : sameDim vecs = true) :
    (query_images { faiss_index := some vecs, image_paths := paths } uri).1 =
      .ok { similar_images :=
              ((List.insertionSort distOrd (searchCandidates vecs
                  (vecs.getD (paths.indexOf uri) []))).take 5).map
                (fun p => paths.getD p.1 "")
            distances :=
              ((List.insertionSort distOrd (searchCandidates vecs
                  (vecs.getD (paths.indexOf uri) []))).take 5).map
                (fun p => p.2) } := by
  have hmem2 : uri ∈ ({ faiss_index := some vecs, image_paths := paths } :
      ServerState).image_paths := hmem
  have hidx : paths.indexOf uri < vecs.length := by
    rw [hlen]
    exact List.indexOf_lt_length.mpr hmem
  rw [query_images_of_mem hmem2]
  exact queryFromIdx_eq hidx hsd

/-! ## Claim theorems -/

/-- Claim C3 (confirmed): an ingestion in which zero items survive fails
with `EmptyBatch`, no new generation is built, and the previously active
generation (index and URI catalog) is left exactly as it was and answers
queries exactly as before. -/
theorem C3_empty_batch_preserves_state (s : ServerState) (m : List ManifestEntry)
    (tok : String) (h : ∀ e ∈ m, survives e = false) :
    upload_images s m tok = (.error .EmptyBatch, s) ∧
    ∀ uri, query_images (upload_images s m tok).2 uri = query_images s uri := by
  have hf : m.filter survives = [] :=
    List.filter_eq_nil_iff.mpr (fun e he => by simp [h e he])
  have hp : processManifest m = ([], []) := by
    rw [processManifest_eq, hf]
    rfl
  have hup : upload_images s m tok = (.error .EmptyBatch, s) := by
    simp [upload_images, hp]
  exact ⟨hup, fun uri => by rw [hup]⟩

/-- Witness for C3: a concrete all-failing batch over a concrete prior
generation. -/
theorem C3_empty_batch_preserves_state_witness :
    upload_images stateW3 manifestW3 "tok" = (.error .EmptyBatch, stateW3) ∧
    ∀ uri, query_images (upload_images stateW3 manifestW3 "tok").2 uri =
      query_images stateW3 uri :=
  C3_empty_batch_preserves_state stateW3 manifestW3 "tok" (by decide)

/-- Claim C5, counterexample: on a concrete batch with one skipped key and
one accepted item, the success payload carries the token, the accepted
count, and the accepted URIs — the skipped keys (here `["k1"]`) appear
nowhere in it, refuting that the result contains the list of skipped keys. -/
theorem C5_counterexample :
    (upload_images initialState manifest5 "tok").1 =
      .ok { message := "Images processed and index created successfully"
            token := "tok", image_count := 1, processed_files := ["u2"] } ∧
    skippedKeys manifest5 = ["k1"] ∧
    (["u2"] : List String) ≠ ["k1"] := by decide

/-- Claim C5 (corrected): a successful ingestion reports the generation
token and the count of accepted items, but the list it carries
(`processed_files`) holds the accepted items' URIs; the soft-skipped
manifest keys are not reported. -/
theorem C5_success_report (s : ServerState) (m : List ManifestEntry) (tok : String)
    (hs : ∃ e ∈ m, survives e = true)
    (hd : sameDim ((m.filter survives).map entryVec) = true) :
    ∃ r, (upload_images s m tok).1 = .ok r ∧ r.token = tok ∧
      r.image_count = (m.filter survives).length ∧
      r.processed_files = (m.filter survives).map ManifestEntry.uri := by
  rw [upload_images_success s m tok hs hd]
  exact ⟨_, rfl, rfl, rfl, rfl⟩

/-- Witness for C5 at a concrete partially-failing batch. -/
theorem C5_success_report_witness :
    ∃ r, (upload_images initialState manifest5 "tok").1 = .ok r ∧ r.token = "tok" ∧
      r.image_count = (manifest5.filter survives).length ∧
      r.processed_files = (manifest5.filter survives).map ManifestEntry.uri :=
  C5_success_report initialState manifest5 "tok" (by decide) (by decide)

/-- Claim C7, counterexample: before any generation has been published,
`query_images` answers the "URI not found" error, not the distinct
index-not-ready error. -/
theorem C7_counterexample :
    (query_images initialState "any-uri").1 = .error .UriNotFound ∧
    RetrievalError.UriNotFound ≠ RetrievalError.IndexNotReady := by decide

/-- Claim C7 (corrected): before any generation has been published,
`search_similar_images` fails with the distinct IndexNotReady error, but
`query_images` — which never checks `faiss_index` — fails with UriNotFound
(its catalog is empty), so the two operations do not both surface
IndexNotReady. -/
theorem C7_initial_state_errors (features : List ℤ) (k : Nat) (uri : String) :
    (search_similar_images initialState features k).1 = .error .IndexNotReady ∧
    (query_images initialState uri).1 = .error .UriNotFound := by
  refine ⟨rfl, ?_⟩
  simp [query_images, initialState]

/-- Claim C10 (confirmed): neither retrieval handler ever modifies the
globals `faiss_index` and `image_paths`: whatever the outcome, the
post-state equals the pre-state. -/
theorem C10_queries_preserve_state (s : ServerState) (features : List ℤ) (k : Nat)
    (uri : String) :
    (search_similar_images s features k).2 = s ∧ (query_images s uri).2 = s := by
  constructor
  · obtain ⟨fi, paths⟩ := s
    cases fi with
    | none => rfl
    | some vecs =>
      cases h : faissSearch vecs features k with
      | error e => simp [search_similar_images, h]
      | ok pairs => simp [search_similar_images, h]
  · by_cases h : uri ∈ s.image_paths
    · simp [query_images, h]
    · simp [query_images, h]

/-- Claim C6 (confirmed): `query_images` resolves a URI to the first entry
in ordinal order whose URI matches — the position it queries holds the URI
and no strictly earlier position does — and answers UriNotFound when no
entry matches. -/
theorem C6_first_match_resolution (s : ServerState) (uri : String) :
    (uri ∉ s.image_paths → (query_images s uri).1 = .error .UriNotFound) ∧
    (uri ∈ s.image_paths →
      (query_images s uri).1 = queryFromIdx s (s.image_paths.indexOf uri) ∧
      s.image_paths[s.image_paths.indexOf uri]? = some uri ∧
      ∀ j < s.image_paths.indexOf uri, s.image_paths[j]? ≠ some uri) := by
  constructor
  · intro h
    rw [query_images_of_not_mem h]
  · intro h
    refine ⟨?_, get?_indexOf_of_mem h, fun j hj => get?_ne_of_lt_indexOf hj⟩
    rw [query_images_of_mem h]

/-- Witness for C6 on a generation where "x" occurs at ordinals 0 and 2:
resolution uses the first match. -/
theorem C6_first_match_resolution_witness :
    (query_images stateW6 "x").1 = queryFromIdx stateW6 (stateW6.image_paths.indexOf "x") ∧
    stateW6.image_paths[stateW6.image_paths.indexOf "x"]? = some "x" ∧
    ∀ j < stateW6.image_paths.indexOf "x", stateW6.image_paths[j]? ≠ some "x" :=
  (C6_first_match_resolution stateW6 "x").2 (by decide)

/-- Claim C4 (confirmed): missing, undecodable or extraction-failing entries
are skipped without aborting the batch — with at least one survivor (and the
provider honouring its fixed dimension) the upload succeeds — and the
survivors become the catalog in original manifest order: entry `i` has
ordinal `i`, the `i`-th surviving URI and the `i`-th surviving vector. -/
theorem C4_survivor_catalog (s : ServerState) (m : List ManifestEntry) (tok : String)
    (hs : ∃ e ∈ m, survives e = true)
    (hd : sameDim ((m.filter survives).map entryVec) = true) :
    (upload_images s m tok).1 =
      .ok { message := "Images processed and index created successfully"
            token := tok
            image_count := (m.filter survives).length
            processed_files := (m.filter survives).map ManifestEntry.uri } ∧
    (upload_images s m tok).2.image_paths = (m.filter survives).map ManifestEntry.uri ∧
    (upload_images s m tok).2.faiss_index = some ((m.filter survives).map entryVec) ∧
    ∀ i (hi : i < (catalogEntries (upload_images s m tok).2).length),
      ((catalogEntries (upload_images s m tok).2).get ⟨i, hi⟩).ordinal = i ∧
      ((catalogEntries (upload_images s m tok).2).get ⟨i, hi⟩).uri =
        ((m.filter survives).map ManifestEntry.uri).getD i "" ∧
      ((catalogEntries (upload_images s m tok).2).get ⟨i, hi⟩).vector =
        ((m.filter survives).map entryVec).getD i [] := by
  rw [upload_images_success s m tok hs hd]
  refine ⟨rfl, rfl, rfl, ?_⟩
  intro i hi
  refine ⟨?_, ?_, ?_⟩ <;>
    simp [catalogEntries, List.get_eq_getElem, List.getElem_map, List.getElem_range]

/-- Witness for C4: a concrete batch with survivors at manifest positions 0
and 2 and a missing file between them. -/
theorem C4_survivor_catalog_witness :
    (upload_images initialState manifestW4 "tok").1 =
      .ok { message := "Images processed and index created successfully"
            token := "tok"
            image_count := (manifestW4.filter survives).length
            processed_files := (manifestW4.filter survives).map ManifestEntry.uri } ∧
    (upload_images initialState manifestW4 "tok").2.image_paths =
      (manifestW4.filter survives).map ManifestEntry.uri ∧
    (upload_images initialState manifestW4 "tok").2.faiss_index =
      some ((manifestW4.filter survives).map entryVec) ∧
    ∀ i (hi : i < (catalogEntries (upload_images initialState manifestW4 "tok").2).length),
      ((catalogEntries (upload_images initialState manifestW4 "tok").2).get ⟨i, hi⟩).ordinal = i ∧
      ((catalogEntries (upload_images initialState manifestW4 "tok").2).get ⟨i, hi⟩).uri =
        ((manifestW4.filter survives).map ManifestEntry.uri).getD i "" ∧
      ((catalogEntries (upload_images initialState manifestW4 "tok").2).get ⟨i, hi⟩).vector =
        ((manifestW4.filter survives).map entryVec).getD i [] :=
  C4_survivor_catalog initialState manifestW4 "tok" (by decide) (by decide)

/-- Claim C8, counterexample: during a concrete re-ingestion the globals
pass through the state pairing the fully-built new index with the old URI
catalog — a state that is neither the old generation nor the new one, so
the publish is not a single atomic reference swap. -/
theorem C8_counterexample :
    ({ faiss_index := some [[7]], image_paths := ["old"] } : ServerState)
        ∈ publishTrace stateW8 manifestW8 ∧
    ({ faiss_index := some [[7]], image_paths := ["old"] } : ServerState) ≠ stateW8 ∧
    ({ faiss_index := some [[7]], image_paths := ["old"] } : ServerState) ≠
      (upload_images stateW8 manifestW8 "tok").2 := by decide

/-- Claim C8 (corrected): a successful ingestion moves the globals from the
old generation to the new one through separate assignments, not one atomic
swap: the observable state sequence starts at the old state and ends at the
new one, but passes through a state holding a freshly published empty index
with the old catalog (the index is filled in place after being assigned to
the global) and through a state pairing the fully-built new index with the
old catalog. -/
theorem C8_publish_not_atomic (s : ServerState) (m : List ManifestEntry)
    (tok : String) (hs : ∃ e ∈ m, survives e = true)
    (hd : sameDim ((m.filter survives).map entryVec) = true) :
    (publishTrace s m).head? = some s ∧
    (publishTrace s m).getLast? = some ((upload_images s m tok).2) ∧
    ({ faiss_index := some [], image_paths := s.image_paths } : ServerState)
      ∈ publishTrace s m ∧
    ({ faiss_index := some ((m.filter survives).map entryVec),
       image_paths := s.image_paths } : ServerState) ∈ publishTrace s m := by
  rw [publishTrace_success s m hs hd, upload_images_success s m tok hs hd]
  refine ⟨rfl, rfl, ?_, ?_⟩ <;> simp

/-- Witness for C8 at a concrete prior generation and single-survivor
batch. -/
theorem C8_publish_not_atomic_witness :
    (publishTrace stateW8 manifestW8).head? = some stateW8 ∧
    (publishTrace stateW8 manifestW8).getLast? =
      some ((upload_images stateW8 manifestW8 "tok").2) ∧
    ({ faiss_index := some [], image_paths := stateW8.image_paths } : ServerState)
      ∈ publishTrace stateW8 manifestW8 ∧
    ({ faiss_index := some ((manifestW8.filter survives).map entryVec),
       image_paths := stateW8.image_paths } : ServerState)
      ∈ publishTrace stateW8 manifestW8 :=
  C8_publish_not_atomic stateW8 manifestW8 "tok" (by decide) (by decide)

/-- Claim C2 (confirmed against the spec-modelled index): on an empty index
the modelled search fails with EmptyIndex; on a non-empty index with a
dimension-matching query it returns exactly `min k N` pairs, strictly
ordered by ascending squared distance with ties broken by ascending
ordinal, each pair scoring a stored ordinal in `[0, N)` against its stored
vector. -/
theorem C2_search_contract (vecs : List (List ℤ)) (q : List ℤ) (k : Nat)
    (_hk : 1 ≤ k) (hdim : q.length = (vecs.headD []).length) :
    (vecs.length = 0 → faissSearch vecs q k = .error .EmptyIndex) ∧
    (0 < vecs.length →
      ∃ res, faissSearch vecs q k = .ok res ∧
        res.length = min k vecs.length ∧
        List.Pairwise distOrdStrict res ∧
        ∀ p ∈ res, p.1 < vecs.length ∧ p.2 = sqDist q (vecs.getD p.1 [])) := by
  constructor
  · intro h0
    rw [List.length_eq_zero.mp h0]
    rfl
  · intro hpos
    have hne : vecs ≠ [] := by
      intro h
      rw [h] at hpos
      exact absurd hpos (by simp)
    refine ⟨_, faissSearch_ok k hne hdim, length_sortTake vecs q k,
      pairwise_strict_sortTake vecs q k, ?_⟩
    intro p hp
    exact of_mem_searchCandidates (mem_of_mem_sortTake hp)

/-- Witness for C2 on a three-vector index queried with k = 2, exercising a
distance tie between ordinals 1 and 2. -/
theorem C2_search_contract_witness :
    (([[0], [2], [2]] : List (List ℤ)).length = 0 →
      faissSearch [[0], [2], [2]] [1] 2 = .error .EmptyIndex) ∧
    (0 < ([[0], [2], [2]] : List (List ℤ)).length →
      ∃ res, faissSearch [[0], [2], [2]] [1] 2 = .ok res ∧
        res.length = min 2 ([[0], [2], [2]] : List (List ℤ)).length ∧
        List.Pairwise distOrdStrict res ∧
        ∀ p ∈ res, p.1 < ([[0], [2], [2]] : List (List ℤ)).length ∧
          p.2 = sqDist [1] (([[0], [2], [2]] : List (List ℤ)).getD p.1 [])) :=
  C2_search_contract [[0], [2], [2]] [1] 2 (by decide) (by decide)

/-- Claim C1, counterexample: on a concrete two-entry generation, querying
the URI "a" returns a neighbor list containing "a" itself — the queried
entry does appear in its own returned neighbor list, refuting the claimed
`k+1`-then-drop self-exclusion. -/
theorem C1_counterexample :
    "a" ∈ cexState1.image_paths ∧
    ∃ r, (query_images cexState1 "a").1 = .ok r ∧ "a" ∈ r.similar_images :=
  ⟨by decide, { similar_images := ["a", "b"], distances := [0, 1] }, by decide, by decide⟩

/-- Claim C1 (corrected): `query_images` performs the neighbor search with
k = 5, not k+1, and drops nothing: the returned list has one entry per
search result, and whenever the generation holds at most 5 entries the
queried entry always appears in its own neighbor list. -/
theorem C1_no_self_exclusion (s : ServerState) (uri : String) (hwf : s.wf)
    (hmem : uri ∈ s.image_paths) (hsmall : s.image_paths.length ≤ 5) :
    ∃ r, (query_images s uri).1 = .ok r ∧ uri ∈ r.similar_images ∧
      r.similar_images.length = s.image_paths.length := by
  obtain ⟨fi, paths⟩ := s
  cases fi with
  | none =>
    have h0 : paths = [] := hwf
    subst h0
    cases hmem
  | some vecs =>
    obtain ⟨hlen, hsd⟩ := hwf
    have hidx : paths.indexOf uri < vecs.length := by
      rw [hlen]
      exact List.indexOf_lt_length.mpr hmem
    refine ⟨_, query_images_ok hmem hlen hsd, ?_, ?_⟩
    · have hfull : (List.insertionSort distOrd (searchCandidates vecs
            (vecs.getD (paths.indexOf uri) []))).take 5
          = List.insertionSort distOrd (searchCandidates vecs
            (vecs.getD (paths.indexOf uri) [])) := by
        apply List.take_of_length_le
        rw [List.length_insertionSort, length_searchCandidates, hlen]
        exact hsmall
      refine List.mem_map.mpr ⟨(paths.indexOf uri,
        sqDist (vecs.getD (paths.indexOf uri) []) (vecs.getD (paths.indexOf uri) [])), ?_, ?_⟩
      · rw [hfull, (List.perm_insertionSort distOrd _).mem_iff]
        exact mem_searchCandidates_of_lt hidx
      · have hg : paths[paths.indexOf uri]? = some uri := get?_indexOf_of_mem hmem
        simp [List.getD_eq_getElem?_getD, hg]
    · rw [List.length_map, length_sortTake, hlen]
      exact Nat.min_eq_right hsmall

/-- Witness for C1 on a concrete two-entry generation: querying "b" returns
a two-element list containing "b". -/
theorem C1_no_self_exclusion_witness :
    ∃ r, (query_images stateW1 "b").1 = .ok r ∧ "b" ∈ r.similar_images ∧
      r.similar_images.length = stateW1.image_paths.length :=
  C1_no_self_exclusion stateW1 "b" ⟨rfl, rfl⟩ (by decide) (by decide)

/-- Claim C9 (confirmed): `query_images` takes no k parameter and always
searches with the fixed k = 5: on every well-formed generation and present
URI it returns exactly `min 5 N` matches and distances, independent of any
caller input. -/
theorem C9_fixed_k_five (s : ServerState) (uri : String) (hwf : s.wf)
    (hmem : uri ∈ s.image_paths) :
    ∃ r, (query_images s uri).1 = .ok r ∧
      r.similar_images.length = min 5 s.image_paths.length ∧
      r.distances.length = min 5 s.image_paths.length := by
  obtain ⟨fi, paths⟩ := s
  cases fi with
  | none =>
    have h0 : paths = [] := hwf
    subst h0
    cases hmem
  | some vecs =>
    obtain ⟨hlen, hsd⟩ := hwf
    refine ⟨_, query_images_ok hmem hlen hsd, ?_, ?_⟩ <;>
      simp [List.length_map, length_sortTake, length_searchCandidates, hlen]

/-- Witness for C9 on a seven-entry generation: exactly `min 5 7 = 5`
results. -/
theorem C9_fixed_k_five_witness :
    ∃ r, (query_images stateW9 "p3").1 = .ok r ∧
      r.similar_images.length = min 5 stateW9.image_paths.length ∧
      r.distances.length = min 5 stateW9.image_paths.length :=
  C9_fixed_k_five stateW9 "p3" ⟨rfl, rfl⟩ (by decide)

end PhotoFaiss
